import Mathlib

/-!
Verification of the medical data visualiser (src/medicaldattavisualiser.py).

The repository consists of two pandas pipelines, `draw_cat_plot` and
`draw_heat_map`, over the CSV table `medical_examination.csv`. We embed the
data model and every transformation step shallowly: a table is a list of rows,
all numeric CSV cells are modelled as exact rationals, the pandas column
operations become row-wise functions, melt/groupby-count become list
operations, quantile implements the pandas linear-interpolation method, and
the Pearson correlation is defined over the reals from exact rational sums.
-/

/-- One row of medical_examination.csv, with the column set the source
assumes (lines 12, 17-27, 71-88 access exactly these columns). All numeric
cells are modelled as exact rationals. -/
structure Row where
  id : ℚ
  age : ℚ
  gender : ℚ
  height : ℚ
  weight : ℚ
  ap_hi : ℚ
  ap_lo : ℚ
  cholesterol : ℚ
  gluc : ℚ
  smoke : ℚ
  alco : ℚ
  active : ℚ
  cardio : ℚ
deriving DecidableEq, Repr

/-- One row after the derivation step: the dataframe with the added
`overweight` column and the binarized `cholesterol` and `gluc` columns
(source lines 17-27 and 74-76). -/
structure DRow where
  id : ℚ
  age : ℚ
  gender : ℚ
  height : ℚ
  weight : ℚ
  ap_hi : ℚ
  ap_lo : ℚ
  cholesterol : ℚ
  gluc : ℚ
  smoke : ℚ
  alco : ℚ
  active : ℚ
  cardio : ℚ
  overweight : ℚ
deriving DecidableEq, Repr

/-- Body-mass index as computed on line 17 of the source:
bmi = df[weight] / (df[height] / 100)**2. -/
def bmi (r : Row) : ℚ := r.weight / (r.height / 100) ^ 2

/-- Derivation step of draw_cat_plot (source lines 17-27): add the
`overweight` column as (bmi > 25).astype(int) and binarize `cholesterol`
and `gluc` as (value > 1).astype(int). -/
def deriveRowCat (r : Row) : DRow :=
  { id := r.id, age := r.age, gender := r.gender, height := r.height
    weight := r.weight, ap_hi := r.ap_hi, ap_lo := r.ap_lo
    cholesterol := if r.cholesterol > 1 then 1 else 0
    gluc := if r.gluc > 1 then 1 else 0
    smoke := r.smoke, alco := r.alco, active := r.active, cardio := r.cardio
    overweight := if bmi r > 25 then 1 else 0 }

/-- Derivation step of draw_heat_map (source lines 74-76), written from
those lines independently of `deriveRowCat`: the `overweight` comparison is
inlined there rather than going through a named bmi series. -/
def deriveRowHeat (r : Row) : DRow :=
  { id := r.id, age := r.age, gender := r.gender, height := r.height
    weight := r.weight, ap_hi := r.ap_hi, ap_lo := r.ap_lo
    cholesterol := if r.cholesterol > 1 then 1 else 0
    gluc := if r.gluc > 1 then 1 else 0
    smoke := r.smoke, alco := r.alco, active := r.active, cardio := r.cardio
    overweight := if r.weight / (r.height / 100) ^ 2 > 25 then 1 else 0 }

/-- Column-wise derivation over the whole table in draw_cat_plot. -/
def deriveCat (t : List Row) : List DRow := t.map deriveRowCat

/-- Column-wise derivation over the whole table in draw_heat_map. -/
def deriveHeat (t : List Row) : List DRow := t.map deriveRowHeat

/-- C1: in the categorical-plot pipeline, for every row of the loaded
dataset the derived `overweight` column equals 1 if
weight / (height/100)^2 > 25 and equals 0 otherwise. -/
theorem cat_overweight_binary (t : List Row) (r : Row) :
    ((deriveRowCat r).overweight = 1 ↔ r.weight / (r.height / 100) ^ 2 > 25) ∧
    ((deriveRowCat r).overweight = 0 ↔ ¬ r.weight / (r.height / 100) ^ 2 > 25) ∧
    (deriveCat t).map DRow.overweight =
      t.map fun s => if s.weight / (s.height / 100) ^ 2 > 25 then 1 else 0 := by
  refine ⟨?_, ?_, ?_⟩
  · simp only [deriveRowCat, bmi]
    split <;> simp_all
  · simp only [deriveRowCat, bmi]
    split <;> simp_all
  · simp [deriveCat, deriveRowCat, bmi]

/-- C3: for every row, the transformed cholesterol column equals 1 if the
original cholesterol value is greater than 1 and 0 otherwise, and likewise
for glucose; this holds in both pipelines (lines 23-27 and 75-76). -/
theorem binarize_chol_gluc (r : Row) :
    ((deriveRowCat r).cholesterol = if r.cholesterol > 1 then 1 else 0) ∧
    ((deriveRowCat r).cholesterol = 1 ↔ r.cholesterol > 1) ∧
    ((deriveRowCat r).cholesterol = 0 ↔ ¬ r.cholesterol > 1) ∧
    ((deriveRowCat r).gluc = 1 ↔ r.gluc > 1) ∧
    ((deriveRowCat r).gluc = 0 ↔ ¬ r.gluc > 1) ∧
    ((deriveRowHeat r).cholesterol = 1 ↔ r.cholesterol > 1) ∧
    ((deriveRowHeat r).cholesterol = 0 ↔ ¬ r.cholesterol > 1) ∧
    ((deriveRowHeat r).gluc = 1 ↔ r.gluc > 1) ∧
    ((deriveRowHeat r).gluc = 0 ↔ ¬ r.gluc > 1) := by
  refine ⟨rfl, ?_, ?_, ?_, ?_, ?_, ?_, ?_, ?_⟩ <;>
    · simp only [deriveRowCat, deriveRowHeat]
      split <;> simp_all

/-- C7: the column-derivation step of the heatmap pipeline is the same
function as the derivation step of the categorical-plot pipeline: both
produce identical derived tables for every input table. -/
theorem derive_steps_equal :
    deriveRowHeat = deriveRowCat ∧ ∀ t : List Row, deriveHeat t = deriveCat t := by
  have h : deriveRowHeat = deriveRowCat := by
    funext r
    simp [deriveRowHeat, deriveRowCat, bmi]
  exact ⟨h, fun t => by simp [deriveHeat, deriveCat, h]⟩

/-- One row of the melted long-form table df_cat (source lines 31-35):
pandas melt keeps the id column `cardio` and produces a (variable, value)
pair per source row and melted column; the variable column holds the source
column name as a string. -/
structure MRow where
  cardio : ℚ
  varName : String
  value : ℚ
deriving DecidableEq, Repr

/-- The value_vars list passed to pd.melt on line 34, in source order. -/
def valueVars : List String :=
  ["cholesterol", "gluc", "smoke", "alco", "active", "overweight"]

/-- The cell of a derived row in the named melted column. -/
def varVal (r : DRow) (v : String) : ℚ :=
  if v = "cholesterol" then r.cholesterol
  else if v = "gluc" then r.gluc
  else if v = "smoke" then r.smoke
  else if v = "alco" then r.alco
  else if v = "active" then r.active
  else r.overweight

/-- The melt step (source lines 31-35): pandas stacks the melted columns
variable-major, one block of all source rows per entry of value_vars. -/
def melt (t : List DRow) : List MRow :=
  valueVars.flatMap fun v => t.map fun r => ⟨r.cardio, v, varVal r v⟩

/-- The group-and-count step (source lines 39-43): group df_cat by all three
of its columns (cardio, variable, value) and count the rows of each group,
naming the count column `total`. Groups are listed per distinct key actually
present; pandas orders them sorted by key, which no claim depends on, while
here they appear in order of first occurrence. -/
def groupbyCount (l : List MRow) : List (MRow × Nat) :=
  l.dedup.map fun k => (k, l.count k)

/-- C5: after melt and group-by-count, for each of the six melted variables
the totals over all (cardio, variable, value) groups of that variable sum to
the number of rows of the source table. -/
theorem melt_group_totals_sum (t : List DRow) (v : String) (hv : v ∈ valueVars) :
    (((groupbyCount (melt t)).filter fun g => g.1.varName = v).map Prod.snd).sum
      = t.length := by
  have hfilter :
      ((groupbyCount (melt t)).filter fun g => g.1.varName = v).map Prod.snd
        = ((melt t).dedup.filter fun k => k.varName = v).map
            fun k => (melt t).count k := by
    simp only [groupbyCount, List.filter_map, List.map_map]
    simp [Function.comp_def]
  rw [hfilter, List.sum_map_count_dedup_filter_eq_countP]
  have hcount : ∀ w : String,
      (melt t).countP (fun k => decide (k.varName = w))
        = (valueVars.countP fun u => decide (u = w)) * t.length := by
    intro w
    simp only [melt]
    induction valueVars with
    | nil => simp
    | cons u us ih =>
      rw [List.flatMap_cons, List.countP_append, ih, List.countP_cons]
      rw [List.countP_map]
      by_cases hw : u = w
      · subst hw
        simp [Function.comp_def, List.countP_true, Nat.add_mul, Nat.add_comm]
      · simp [Function.comp_def, hw, List.countP_false]
  rw [hcount v]
  have hone : (valueVars.countP fun u => decide (u = v)) = 1 := by
    fin_cases hv <;> decide
  rw [hone, Nat.one_mul]

/-- A small concrete derived table used to instantiate theorems with
hypotheses on explicit inputs. -/
def sampleDRow : DRow :=
  { id := 0, age := 18300, gender := 2, height := 168, weight := 62
    ap_hi := 110, ap_lo := 80, cholesterol := 0, gluc := 0
    smoke := 0, alco := 0, active := 1, cardio := 0, overweight := 0 }

theorem melt_group_totals_sum_witness :
    "smoke" ∈ valueVars ∧
    (((groupbyCount (melt [sampleDRow])).filter
        fun g => g.1.varName = "smoke").map Prod.snd).sum = [sampleDRow].length :=
  ⟨by decide, melt_group_totals_sum [sampleDRow] "smoke" (by decide)⟩

/-- C10: the grouped count table contains a group row only for combinations
that occur: every listed group key occurs in the melted table, its `total`
is at least 1, and the `total` is exactly the number of occurrences of that
key, so zero-occurrence combinations are absent. -/
theorem group_totals_positive (t : List DRow) (g : MRow × Nat)
    (hg : g ∈ groupbyCount (melt t)) :
    g.1 ∈ melt t ∧ 1 ≤ g.2 ∧ g.2 = (melt t).count g.1 := by
  obtain ⟨k, hk, rfl⟩ := List.mem_map.mp hg
  have hmem : k ∈ melt t := List.mem_dedup.mp hk
  exact ⟨hmem, List.count_pos_iff.mpr hmem, rfl⟩

theorem group_totals_positive_witness :
    (MRow.mk 0 "cholesterol" 0, 1) ∈ groupbyCount (melt [sampleDRow]) ∧
    (MRow.mk 0 "cholesterol" 0 ∈ melt [sampleDRow] ∧
      1 ≤ (MRow.mk 0 "cholesterol" 0, 1).2 ∧
      (MRow.mk 0 "cholesterol" 0, 1).2 = (melt [sampleDRow]).count (MRow.mk 0 "cholesterol" 0)) :=
  ⟨by decide, group_totals_positive [sampleDRow] (MRow.mk 0 "cholesterol" 0, 1) (by decide)⟩

/-- Insertion of a value into an ascending list, used to sort a column the
way pandas quantile does before interpolating. -/
def insertAsc (x : ℚ) : List ℚ → List ℚ
  | [] => [x]
  | y :: ys => if x ≤ y then x :: y :: ys else y :: insertAsc x ys

/-- Ascending sort of a column. -/
def sortAsc (xs : List ℚ) : List ℚ := xs.foldr insertAsc []

/-- Series.quantile with the default linear interpolation, as pandas
computes it on lines 84-87: with the n sorted values v indexed from 0, the
q-quantile sits at position h = q * (n - 1) and is interpolated linearly
between v[floor h] and the next value. -/
def quantile (xs : List ℚ) (q : ℚ) : ℚ :=
  let s := sortAsc xs
  let n := s.length
  if n = 0 then 0
  else
    let h : ℚ := q * (n - 1)
    let i : Nat := (Int.floor h).toNat
    let lo := s.getD i 0
    let hi := s.getD (min (i + 1) (n - 1)) 0
    lo + (h - i) * (hi - lo)

/-- The row filter of draw_heat_map (source lines 82-88): keep a row when
ap_lo <= ap_hi and its height and weight lie between the 0.025 and 0.975
quantiles, where all four quantile bounds are series of the unfiltered
derived table df. -/
def heatFilter (t : List DRow) : List DRow :=
  let hLo := quantile (t.map DRow.height) 0.025
  let hHi := quantile (t.map DRow.height) 0.975
  let wLo := quantile (t.map DRow.weight) 0.025
  let wHi := quantile (t.map DRow.weight) 0.975
  t.filter fun r =>
    decide (r.ap_lo ≤ r.ap_hi) && decide (hLo ≤ r.height) &&
    decide (r.height ≤ hHi) && decide (wLo ≤ r.weight) && decide (r.weight ≤ wHi)

/-- C2: every row retained by the heatmap filter satisfies ap_lo <= ap_hi
and has height and weight inside the closed 2.5th-97.5th percentile
interval, both percentile bounds being computed over the unfiltered derived
table. -/
theorem heat_filter_invariant (t0 : List Row) (r : DRow)
    (hr : r ∈ heatFilter (deriveHeat t0)) :
    r.ap_lo ≤ r.ap_hi ∧
    quantile ((deriveHeat t0).map DRow.height) 0.025 ≤ r.height ∧
    r.height ≤ quantile ((deriveHeat t0).map DRow.height) 0.975 ∧
    quantile ((deriveHeat t0).map DRow.weight) 0.025 ≤ r.weight ∧
    r.weight ≤ quantile ((deriveHeat t0).map DRow.weight) 0.975 := by
  have h := (List.mem_filter.mp hr).2
  simp only [Bool.and_eq_true, decide_eq_true_eq] at h
  exact ⟨h.1.1.1.1, h.1.1.1.2, h.1.1.2, h.1.2, h.2⟩

/-- A small concrete raw row whose derived form passes the heatmap filter. -/
def sampleRow : Row :=
  { id := 0, age := 18300, gender := 2, height := 168, weight := 62
    ap_hi := 110, ap_lo := 80, cholesterol := 1, gluc := 1
    smoke := 0, alco := 0, active := 1, cardio := 0 }

theorem heat_filter_invariant_witness :
    deriveRowHeat sampleRow ∈ heatFilter (deriveHeat [sampleRow]) ∧
    ((deriveRowHeat sampleRow).ap_lo ≤ (deriveRowHeat sampleRow).ap_hi ∧
      quantile ((deriveHeat [sampleRow]).map DRow.height) 0.025 ≤
        (deriveRowHeat sampleRow).height ∧
      (deriveRowHeat sampleRow).height ≤
        quantile ((deriveHeat [sampleRow]).map DRow.height) 0.975 ∧
      quantile ((deriveHeat [sampleRow]).map DRow.weight) 0.025 ≤
        (deriveRowHeat sampleRow).weight ∧
      (deriveRowHeat sampleRow).weight ≤
        quantile ((deriveHeat [sampleRow]).map DRow.weight) 0.975) := by
  have hmem : deriveRowHeat sampleRow ∈ heatFilter (deriveHeat [sampleRow]) := by
    norm_num [heatFilter, deriveHeat, deriveRowHeat, sampleRow, quantile,
      sortAsc, insertAsc]
  exact ⟨hmem, heat_filter_invariant [sampleRow] (deriveRowHeat sampleRow) hmem⟩

/-- Mean of a column, as used inside the Pearson coefficient. -/
def mean (xs : List ℚ) : ℚ := xs.sum / xs.length

/-- Centered cross sum of two columns: the sum over paired entries of the
products of deviations from the respective column means. Pearson r of two
columns is sdot x y / (sqrt (sdot x x) * sqrt (sdot y y)); the 1/(n-1)
factors of the sample covariances cancel. -/
def sdot (xs ys : List ℚ) : ℚ :=
  (List.zipWith (fun a b => (a - mean xs) * (b - mean ys)) xs ys).sum

/-- Pearson correlation coefficient of two columns, the entry formula of
df_heat.corr() on line 91. The value is real because of the square roots;
all sums are exact. With a constant column the denominator is zero and the
value degenerates (pandas reports NaN there; here division by zero gives 0:
either way the value is not 1). -/
noncomputable def corr (xs ys : List ℚ) : ℝ :=
  (sdot xs ys : ℝ) / (Real.sqrt (sdot xs xs) * Real.sqrt (sdot ys ys))

/-- The numeric columns of df_heat in dataframe order, as fed to .corr() on
line 91: the 13 CSV columns followed by the appended overweight column. -/
def heatColumns (t : List DRow) : List (List ℚ) :=
  [t.map DRow.id, t.map DRow.age, t.map DRow.gender, t.map DRow.height,
   t.map DRow.weight, t.map DRow.ap_hi, t.map DRow.ap_lo,
   t.map DRow.cholesterol, t.map DRow.gluc, t.map DRow.smoke,
   t.map DRow.alco, t.map DRow.active, t.map DRow.cardio, t.map DRow.overweight]

/-- Entry (i, j) of the correlation matrix corr = df_heat.corr(). -/
noncomputable def corrM (cols : List (List ℚ)) (i j : Nat) : ℝ :=
  corr (cols.getD i []) (cols.getD j [])

lemma sdot_self_nonneg (xs : List ℚ) : 0 ≤ sdot xs xs := by
  unfold sdot
  rw [List.zipWith_same]
  apply List.sum_nonneg
  intro x hx
  obtain ⟨a, _, rfl⟩ := List.mem_map.mp hx
  exact mul_self_nonneg _

lemma sdot_comm (xs ys : List ℚ) : sdot xs ys = sdot ys xs := by
  unfold sdot
  rw [List.zipWith_comm (fun a b => (a - mean xs) * (b - mean ys))]
  have hf : (fun b a => (a - mean xs) * (b - mean ys))
      = fun a b => (a - mean ys) * (b - mean xs) := by
    funext a b
    ring
  rw [hf]

lemma corr_self_eq_one (xs : List ℚ) (h : sdot xs xs ≠ 0) : corr xs xs = 1 := by
  unfold corr
  have h0 : (0 : ℝ) ≤ ((sdot xs xs : ℚ) : ℝ) := by
    exact_mod_cast sdot_self_nonneg xs
  rw [Real.mul_self_sqrt h0]
  rw [div_self]
  exact_mod_cast h

lemma corr_comm (xs ys : List ℚ) : corr xs ys = corr ys xs := by
  unfold corr
  rw [sdot_comm xs ys, mul_comm]

/-- C6 (amended): in the heatmap pipeline, the correlation matrix is always
symmetric, and a diagonal entry equals 1 whenever its column is
non-constant, i.e. has nonzero centered sum of squares. -/
theorem corr_diag_one_and_symm (t0 : List Row) (i : Nat)
    (hnz : sdot ((heatColumns (heatFilter (deriveHeat t0))).getD i [])
        ((heatColumns (heatFilter (deriveHeat t0))).getD i []) ≠ 0) :
    corrM (heatColumns (heatFilter (deriveHeat t0))) i i = 1 ∧
    ∀ a b : Nat, corrM (heatColumns (heatFilter (deriveHeat t0))) a b
      = corrM (heatColumns (heatFilter (deriveHeat t0))) b a :=
  ⟨corr_self_eq_one _ hnz, fun _ _ => corr_comm _ _⟩

/-- A second raw row, differing from sampleRow only in id, so that the id
column of the two-row table is non-constant. -/
def sampleRow2 : Row :=
  { id := 1, age := 18300, gender := 2, height := 168, weight := 62
    ap_hi := 110, ap_lo := 80, cholesterol := 1, gluc := 1
    smoke := 0, alco := 0, active := 1, cardio := 0 }

theorem corr_diag_one_and_symm_witness :
    sdot ((heatColumns (heatFilter (deriveHeat [sampleRow, sampleRow2]))).getD 0 [])
        ((heatColumns (heatFilter (deriveHeat [sampleRow, sampleRow2]))).getD 0 []) ≠ 0 ∧
    (corrM (heatColumns (heatFilter (deriveHeat [sampleRow, sampleRow2]))) 0 0 = 1 ∧
      ∀ a b : Nat,
        corrM (heatColumns (heatFilter (deriveHeat [sampleRow, sampleRow2]))) a b
          = corrM (heatColumns (heatFilter (deriveHeat [sampleRow, sampleRow2]))) b a) := by
  have hfil : heatFilter (deriveHeat [sampleRow, sampleRow2])
      = [deriveRowHeat sampleRow, deriveRowHeat sampleRow2] := by
    norm_num [heatFilter, deriveHeat, deriveRowHeat, sampleRow, sampleRow2,
      quantile, sortAsc, insertAsc]
  have hnz : sdot ((heatColumns (heatFilter (deriveHeat [sampleRow, sampleRow2]))).getD 0 [])
      ((heatColumns (heatFilter (deriveHeat [sampleRow, sampleRow2]))).getD 0 []) ≠ 0 := by
    rw [hfil]
    norm_num [heatColumns, deriveRowHeat, sampleRow, sampleRow2, sdot, mean]
  exact ⟨hnz, corr_diag_one_and_symm [sampleRow, sampleRow2] 0 hnz⟩

/-- C6 counterexample: a filtered dataset with one row (hence at least one
row) on which the diagonal entry of the correlation matrix is not 1: every
column of a one-row table is constant, so the Pearson denominator is 0 and
the entry degenerates instead of being 1.0. -/
theorem corr_diag_one_cex :
    1 ≤ (heatFilter (deriveHeat [sampleRow])).length ∧
    corrM (heatColumns (heatFilter (deriveHeat [sampleRow]))) 0 0 ≠ 1 := by
  have hfil : heatFilter (deriveHeat [sampleRow]) = [deriveRowHeat sampleRow] := by
    norm_num [heatFilter, deriveHeat, deriveRowHeat, sampleRow, quantile,
      sortAsc, insertAsc]
  constructor
  · rw [hfil]
    norm_num
  · rw [hfil]
    have hcol : (heatColumns [deriveRowHeat sampleRow]).getD 0 [] = [(0 : ℚ)] := by
      norm_num [heatColumns, deriveRowHeat, sampleRow]
    unfold corrM corr
    rw [hcol]
    have hs : sdot [(0 : ℚ)] [(0 : ℚ)] = 0 := by norm_num [sdot, mean]
    rw [hs]
    norm_num

/-- np.triu applied entrywise to a square matrix (line 95): entries on or
above the main diagonal are kept, entries below it are zeroed. The matrix is
an index function, as a numpy array is. -/
def triu (m : Nat → Nat → ℝ) : Nat → Nat → ℝ :=
  fun i j => if i ≤ j then m i j else 0

/-- Truthiness of cell (i, j) of the heatmap mask (lines 95 and 103):
sns.heatmap hides exactly the cells where the mask array is truthy, and a
numpy float is truthy iff it is nonzero. -/
def maskTrue (m : Nat → Nat → ℝ) (i j : Nat) : Prop :=
  triu m i j ≠ 0

/-- An entirely possible correlation matrix holding a zero off-diagonal
entry: the correlation matrix of pairwise uncorrelated columns. -/
def exCorr : Nat → Nat → ℝ :=
  fun i j => if i = j then 1 else 0

/-- C4 counterexample: the mask np.triu builds is not true on the whole
upper triangle regardless of the stored values: on a correlation matrix
with a 0 at the upper-triangle cell (0, 1), that cell is not masked even
though 0 <= 1. -/
theorem mask_upper_cex : 0 ≤ 1 ∧ ¬ maskTrue exCorr 0 1 := by
  refine ⟨Nat.zero_le 1, ?_⟩
  simp [maskTrue, triu, exCorr]

/-- C4 (amended): the mask built by np.triu(corr) is true at (i, j) iff
i <= j and the correlation entry there is nonzero; on or below-diagonal
zeros of the matrix leak through the intended upper-triangle mask. -/
theorem mask_upper_triangle_nonzero (m : Nat → Nat → ℝ) (i j : Nat) :
    maskTrue m i j ↔ i ≤ j ∧ m i j ≠ 0 := by
  unfold maskTrue triu
  split <;> simp_all

/-- Exceptions the underlying libraries can raise during a run: a missing
dataset file, a missing or mistyped column (schema mismatch), a value the
numeric operations reject, or a plotting failure. The pipelines contain no
try/except, so these are only ever constructed by the modelled libraries and
carried through unchanged. -/
inductive PyExc
  | fileNotFound (path : String)
  | keyError (col : String)
  | valueError (msg : String)
  | plotError (msg : String)
deriving DecidableEq, Repr

/-- The figure draw_cat_plot builds and returns: a bar chart whose bars are
exactly the rows of the grouped count table (x = variable, height = total,
hue = value, facet = cardio, lines 46-55). -/
structure CatFig where
  data : List (MRow × Nat)
deriving DecidableEq, Repr

/-- The figure draw_heat_map builds and returns: an annotated heatmap of
the correlation matrix of the filtered columns, masked by np.triu, with the
fixed rendering constants of lines 101-113. -/
structure HeatFig where
  corrSrc : List (List ℚ)
  vmax : ℚ
deriving DecidableEq, Repr

/-- The data transformations of draw_cat_plot after loading (lines 17-43
followed by the catplot of lines 46-58): derive columns, melt, group and
count, then build the figure from the count table. -/
def catPipeline (t : List Row) : CatFig :=
  ⟨groupbyCount (melt (deriveCat t))⟩

/-- The data transformations of draw_heat_map after loading (lines 74-95
followed by the heatmap of lines 98-113): derive columns, filter rows, and
build the figure from the filtered columns with vmax = 0.32. -/
def heatPipeline (t : List Row) : HeatFig :=
  ⟨heatColumns (heatFilter (deriveHeat t)), 0.32⟩

/-- The outcome of each library call draw_cat_plot makes, in the statement
order of the source: pd.read_csv (line 12), the column derivation
(lines 17-27), pd.melt (lines 31-35), the groupby-count (lines 39-43), the
sns.catplot and figure extraction (lines 46-58), and fig.savefig (line 61).
Each stage may raise: the library code deciding whether pandas, seaborn or
matplotlib fail on a given input (missing file, schema mismatch,
non-numeric values, a degenerate aggregate, a failing write) is not part of
this repository, so every stage is an arbitrary fallible function and the
theorems below hold for all of them; on well-typed tables the successful
values are the modelled transforms (deriveCat, melt, groupbyCount,
catPipeline), but nothing below assumes that. -/
structure CatStages where
  load : Except PyExc (List Row)
  deriveStep : List Row → Except PyExc (List DRow)
  meltStep : List DRow → Except PyExc (List MRow)
  groupStep : List MRow → Except PyExc (List (MRow × Nat))
  plotStep : List (MRow × Nat) → Except PyExc CatFig
  saveStep : CatFig → Except PyExc Unit

/-- A run of draw_cat_plot: Python executes the body in order and the first
raised exception aborts the function, so each stage runs only when every
earlier one succeeded, and fig.savefig on line 61 runs last. The source has
no try/except, so no other control flow exists. The second component lists
the image files the run produced: catplot.png exists exactly when every
stage up to and including the save succeeded. -/
def drawCatPlotRun (s : CatStages) : Except PyExc CatFig × List String :=
  match s.load with
  | .error e => (.error e, [])
  | .ok t =>
    match s.deriveStep t with
    | .error e => (.error e, [])
    | .ok d =>
      match s.meltStep d with
      | .error e => (.error e, [])
      | .ok m =>
        match s.groupStep m with
        | .error e => (.error e, [])
        | .ok g =>
          match s.plotStep g with
          | .error e => (.error e, [])
          | .ok fig =>
            match s.saveStep fig with
            | .error e => (.error e, [])
            | .ok _ => (.ok fig, ["catplot.png"])

/-- The outcome of each library call draw_heat_map makes, in the statement
order of the source: pd.read_csv (line 71), the column derivation
(lines 74-76), the row filter (lines 82-88), df_heat.corr() (line 91) - an
empty filtered result degenerates here or at the plot call - then np.triu,
plt.subplots and sns.heatmap (lines 95-113), and fig.savefig (line 116).
As in CatStages, each stage is an arbitrary fallible function; corrStep
carries the filtered columns the correlation matrix is computed from. -/
structure HeatStages where
  load : Except PyExc (List Row)
  deriveStep : List Row → Except PyExc (List DRow)
  filterStep : List DRow → Except PyExc (List DRow)
  corrStep : List DRow → Except PyExc (List (List ℚ))
  plotStep : List (List ℚ) → Except PyExc HeatFig
  saveStep : HeatFig → Except PyExc Unit

/-- A run of draw_heat_map, sequenced exactly as the source with
fig.savefig on line 116 last: heatmap.png exists exactly when every stage
succeeded. -/
def drawHeatMapRun (s : HeatStages) : Except PyExc HeatFig × List String :=
  match s.load with
  | .error e => (.error e, [])
  | .ok t =>
    match s.deriveStep t with
    | .error e => (.error e, [])
    | .ok d =>
      match s.filterStep d with
      | .error e => (.error e, [])
      | .ok f =>
        match s.corrStep f with
        | .error e => (.error e, [])
        | .ok c =>
          match s.plotStep c with
          | .error e => (.error e, [])
          | .ok fig =>
            match s.saveStep fig with
            | .error e => (.error e, [])
            | .ok _ => (.ok fig, ["heatmap.png"])

/-- C8: whichever stage of either pipeline fails - loading, derivation,
melt or filter, aggregation or correlation, plotting, or the image write -
and whatever exception the underlying library raises there, the run
surfaces exactly that exception, neither caught nor translated, and
produces no image file. The twelve conjuncts cover every failure point of
both functions, for every behaviour of the library stages. -/
theorem run_propagates_errors (e : PyExc) (cs : CatStages) (hs : HeatStages) :
    (cs.load = .error e → drawCatPlotRun cs = (.error e, [])) ∧
    (∀ t, cs.load = .ok t → cs.deriveStep t = .error e →
      drawCatPlotRun cs = (.error e, [])) ∧
    (∀ t d, cs.load = .ok t → cs.deriveStep t = .ok d →
      cs.meltStep d = .error e → drawCatPlotRun cs = (.error e, [])) ∧
    (∀ t d m, cs.load = .ok t → cs.deriveStep t = .ok d →
      cs.meltStep d = .ok m → cs.groupStep m = .error e →
      drawCatPlotRun cs = (.error e, [])) ∧
    (∀ t d m g, cs.load = .ok t → cs.deriveStep t = .ok d →
      cs.meltStep d = .ok m → cs.groupStep m = .ok g →
      cs.plotStep g = .error e → drawCatPlotRun cs = (.error e, [])) ∧
    (∀ t d m g fig, cs.load = .ok t → cs.deriveStep t = .ok d →
      cs.meltStep d = .ok m → cs.groupStep m = .ok g →
      cs.plotStep g = .ok fig → cs.saveStep fig = .error e →
      drawCatPlotRun cs = (.error e, [])) ∧
    (hs.load = .error e → drawHeatMapRun hs = (.error e, [])) ∧
    (∀ t, hs.load = .ok t → hs.deriveStep t = .error e →
      drawHeatMapRun hs = (.error e, [])) ∧
    (∀ t d, hs.load = .ok t → hs.deriveStep t = .ok d →
      hs.filterStep d = .error e → drawHeatMapRun hs = (.error e, [])) ∧
    (∀ t d f, hs.load = .ok t → hs.deriveStep t = .ok d →
      hs.filterStep d = .ok f → hs.corrStep f = .error e →
      drawHeatMapRun hs = (.error e, [])) ∧
    (∀ t d f c, hs.load = .ok t → hs.deriveStep t = .ok d →
      hs.filterStep d = .ok f → hs.corrStep f = .ok c →
      hs.plotStep c = .error e → drawHeatMapRun hs = (.error e, [])) ∧
    (∀ t d f c fig, hs.load = .ok t → hs.deriveStep t = .ok d →
      hs.filterStep d = .ok f → hs.corrStep f = .ok c →
      hs.plotStep c = .ok fig → hs.saveStep fig = .error e →
      drawHeatMapRun hs = (.error e, [])) := by
  refine ⟨?_, ?_, ?_, ?_, ?_, ?_, ?_, ?_, ?_, ?_, ?_, ?_⟩ <;>
    · intros
      simp_all [drawCatPlotRun, drawHeatMapRun]

/-- The process environment a run could in principle read: every file on
disk (as a parsed table per path), a clock and a random seed. The source
touches nothing of it but the one CSV file, read on lines 12 and 71. -/
structure Env where
  files : String → List Row
  clockNow : Nat
  randomSeed : Nat

/-- draw_cat_plot as a function of the whole environment: it reads only
medical_examination.csv. -/
def drawCatPlotEnv (env : Env) : CatFig :=
  catPipeline (env.files "medical_examination.csv")

/-- draw_heat_map as a function of the whole environment: it reads only
medical_examination.csv. -/
def drawHeatMapEnv (env : Env) : HeatFig :=
  heatPipeline (env.files "medical_examination.csv")

/-- C9: both pipelines are deterministic functions of the on-disk dataset
alone: two runs in environments that agree on the content of
medical_examination.csv - whatever the clock, the seed and every other file
do - produce identical count tables and figures, identical filtered
columns, and an identical correlation matrix. The only other inputs are the
constants 25, 0.025, 0.975 and 0.32 fixed in the code. -/
theorem runs_deterministic (e1 e2 : Env)
    (h : e1.files "medical_examination.csv" = e2.files "medical_examination.csv") :
    drawCatPlotEnv e1 = drawCatPlotEnv e2 ∧
    drawHeatMapEnv e1 = drawHeatMapEnv e2 ∧
    corrM (drawHeatMapEnv e1).corrSrc = corrM (drawHeatMapEnv e2).corrSrc := by
  unfold drawCatPlotEnv drawHeatMapEnv
  rw [h]
  exact ⟨rfl, rfl, rfl⟩

/-- Two environments that differ in the clock, the seed and other files but
hold the same dataset. -/
def sampleEnv1 : Env :=
  { files := fun _ => [sampleRow], clockNow := 0, randomSeed := 0 }

def sampleEnv2 : Env :=
  { files := fun p => if p = "medical_examination.csv" then [sampleRow] else [sampleRow2]
    clockNow := 99, randomSeed := 7 }

theorem runs_deterministic_witness :
    sampleEnv1.files "medical_examination.csv"
      = sampleEnv2.files "medical_examination.csv" ∧
    (drawCatPlotEnv sampleEnv1 = drawCatPlotEnv sampleEnv2 ∧
      drawHeatMapEnv sampleEnv1 = drawHeatMapEnv sampleEnv2 ∧
      corrM (drawHeatMapEnv sampleEnv1).corrSrc
        = corrM (drawHeatMapEnv sampleEnv2).corrSrc) :=
  ⟨rfl, runs_deterministic sampleEnv1 sampleEnv2 rfl⟩
